import Mathlib

/-
Verification development for the web-element change-detector CLI.

Shallow embedding of the orchestration core:
  - `detectChange` / `processEntry`        (src/change-detector.js)
  - `categorizeError` / `shouldStopWorkflow` (src/error-handler.js)
  - `updateConfigValues`                   (src/state-manager.js)
  - `handleNavigationError` and the selector-timeout wrapping
                                           (src/page-monitor.js)
  - `closePage`                            (src/browser-controller.js)
  - `processMonitoringTarget` / `processMonitoringTargets`
                                           (detect-change.js, MonitoringWorkflow)

JavaScript strings are Lean `String`s; JavaScript runtime values that can
reach the comparison code are modelled by `JSVal`; thrown exceptions are
modelled by `Except String`; the sequencing of externally visible actions
of one run is modelled by an explicit event trace.
-/

namespace DetectWebChange

/-- Model of a JavaScript value as it can appear in `current_value` fields or
extracted content: `null` and `undefined` (both nullish), strings, integers
and booleans. -/
inductive JSVal where
  | vnull : JSVal
  | vundef : JSVal
  | vstr : String → JSVal
  | vnum : Int → JSVal
  | vbool : Bool → JSVal
deriving DecidableEq

/-- JavaScript `x == null` (matches both `null` and `undefined`). -/
def JSVal.isNullish : JSVal → Bool
  | .vnull => true
  | .vundef => true
  | _ => false

/-- JavaScript `String(x)` coercion for the values of our model. -/
def JSVal.toStr : JSVal → String
  | .vnull => "null"
  | .vundef => "undefined"
  | .vstr s => s
  | .vnum n => toString n
  | .vbool b => if b then "true" else "false"

/-- Whitespace test used by our model of `String.prototype.trim`. -/
def isWsChar (c : Char) : Bool :=
  c = ' ' || c = '\t' || c = '\n' || c = '\r'

/-- Model of JavaScript `String.prototype.trim`: drop leading and trailing
whitespace characters. -/
def jsTrim (s : String) : String :=
  ⟨((s.data.dropWhile isWsChar).reverse.dropWhile isWsChar).reverse⟩

/-- Embedding of `a.isPrefixOf b` for character lists, by explicit recursion. -/
def leadsWith : List Char → List Char → Bool
  | [], _ => true
  | _ :: _, [] => false
  | a :: as, b :: bs => a = b && leadsWith as bs

/-- Tests whether `n` occurs as a contiguous run inside `h`. -/
def occursIn (n : List Char) : List Char → Bool
  | [] => n.isEmpty
  | b :: bs => leadsWith n (b :: bs) || occursIn n bs

/-- Model of JavaScript `hay.includes(needle)`. -/
def strIncludes (hay needle : String) : Bool :=
  occursIn needle.data hay.data

/-- Embedding of `detectChange(currentValue, storedValue)` from src/change-detector.js:
both nullish means unchanged, exactly one nullish means changed, otherwise
compare the `String(...)`-coerced, trimmed values. -/
def detectChange (currentValue storedValue : JSVal) : Bool :=
  if currentValue.isNullish && storedValue.isNullish then false
  else if currentValue.isNullish || storedValue.isNullish then true
  else jsTrim currentValue.toStr != jsTrim storedValue.toStr

/-- A monitoring target entry from the configuration file
(`{url, css_selector, current_value}`). -/
structure Entry where
  url : String
  css_selector : String
  current_value : JSVal
deriving DecidableEq

/-- The per-target record produced by `ChangeDetector.processEntry`: both the
no-change result and the change record carry the entry, the `hasChanged`
flag, the old stored value and the newly extracted value. -/
structure ResultRec where
  entry : Entry
  hasChanged : Bool
  oldValue : JSVal
  newValue : JSVal
deriving DecidableEq

/-- Embedding of `ChangeDetector.processEntry(entry, extractedValue)` from
src/change-detector.js. -/
def processEntry (e : Entry) (extractedValue : JSVal) : ResultRec :=
  { entry := e
    hasChanged := detectChange extractedValue e.current_value
    oldValue := e.current_value
    newValue := extractedValue }

/-- Error severity levels from src/error-handler.js (`ErrorSeverity`). -/
inductive Severity where
  | CRITICAL
  | HIGH
  | MEDIUM
  | LOW
deriving DecidableEq

/-- The context object passed to the error handler (`context.type` and
`context.operation`). -/
structure Ctx where
  ctype : String
  operation : String
deriving DecidableEq

/-- A categorized error as returned by `ErrorHandler.categorizeError`. -/
structure ClassifiedError where
  etype : String
  severity : Severity
  category : String
  userMessage : String
  technicalMessage : String
  suggestions : List String
deriving DecidableEq

/-- Embedding of `getConfigErrorMessage` from src/error-handler.js. -/
def getConfigErrorMessage (message : String) : String :=
  if strIncludes message "not found" then
    "Configuration file not found. Please check the file path."
  else if strIncludes message "Invalid JSON" then
    "Configuration file contains invalid JSON. Please check the file format."
  else if strIncludes message "Missing required field" then
    "Configuration file is missing required fields. Please check the file structure."
  else "Configuration file error. Please check your input file."

/-- Embedding of `getConfigErrorSuggestions` from src/error-handler.js. -/
def getConfigErrorSuggestions (message : String) : List String :=
  "Verify the configuration file path is correct" ::
    ((if strIncludes message "Invalid JSON" then
        ["Use a JSON validator to check file syntax",
         "Ensure all strings are properly quoted"]
      else []) ++
     (if strIncludes message "Missing required field" then
        ["Ensure each entry has url, css_selector, and current_value fields"]
      else []))

/-- Embedding of `getChromeErrorMessage` from src/error-handler.js. -/
def getChromeErrorMessage (message : String) : String :=
  if strIncludes message "port" && strIncludes message "in use" then
    "Chrome debug port is already in use. Please close existing Chrome instances."
  else if strIncludes message "launch" then
    "Failed to launch Chrome browser. Please check Chrome installation."
  else "Chrome browser error occurred."

/-- Embedding of `getChromeErrorSuggestions` from src/error-handler.js: starts from an
empty list and only pushes suggestions for messages mentioning a port or a
launch failure. -/
def getChromeErrorSuggestions (message : String) : List String :=
  (if strIncludes message "port" then
     ["Close any existing Chrome instances",
      "Check if another application is using port 9222"]
   else []) ++
  (if strIncludes message "launch" then
     ["Verify Chrome is installed and accessible",
      "Check system permissions for launching applications"]
   else [])

/-- Embedding of `getBrowserErrorMessage` from src/error-handler.js. -/
def getBrowserErrorMessage (message : String) : String :=
  if strIncludes message "connect" then
    "Failed to connect to Chrome browser. The browser may not be ready."
  else "Browser connection error occurred."

/-- Embedding of `getBrowserErrorSuggestions` from src/error-handler.js. -/
def getBrowserErrorSuggestions (_message : String) : List String :=
  ["Wait a moment and try again",
   "Ensure Chrome launched successfully",
   "Check if Chrome debug port is accessible"]

/-- Embedding of `getPageErrorMessage` from src/error-handler.js. -/
def getPageErrorMessage (message : String) : String :=
  if strIncludes message "timeout" then
    "Page failed to load within the timeout period."
  else if strIncludes message "net::ERR" then
    "Network error occurred while loading the page."
  else "Page navigation error occurred."

/-- Embedding of `getPageErrorSuggestions` from src/error-handler.js. -/
def getPageErrorSuggestions (message : String) : List String :=
  "Check your internet connection" ::
    (if strIncludes message "timeout" then
       ["The website may be slow - try increasing timeout",
        "Verify the URL is correct and accessible"]
     else [])

/-- Embedding of `getExtractionErrorMessage` from src/error-handler.js. -/
def getExtractionErrorMessage (message : String) : String :=
  if strIncludes message "selector" && strIncludes message "not found" then
    "The specified CSS selector was not found on the page."
  else if strIncludes message "timeout" then
    "Element selection timed out - the element may not exist or load slowly."
  else "Failed to extract content from the page element."

/-- Embedding of `getExtractionErrorSuggestions` from src/error-handler.js: empty unless
the message mentions a selector or a timeout. -/
def getExtractionErrorSuggestions (message : String) : List String :=
  (if strIncludes message "selector" then
     ["Verify the CSS selector is correct",
      "Check if the page structure has changed",
      "Use browser developer tools to test the selector"]
   else []) ++
  (if strIncludes message "timeout" then
     ["The element may load dynamically - try increasing timeout"]
   else [])

/-- Embedding of `getNotificationErrorMessage` from src/error-handler.js. -/
def getNotificationErrorMessage (message : String) : String :=
  if strIncludes message "webhook" then
    "Failed to send Slack notification. Check webhook URL and network connection."
  else "Notification delivery failed."

/-- Embedding of `getNotificationErrorSuggestions` from src/error-handler.js. -/
def getNotificationErrorSuggestions (_message : String) : List String :=
  ["Verify the Slack webhook URL is correct",
   "Check your internet connection",
   "Ensure the Slack workspace allows webhook notifications"]

/-- Embedding of `getPersistenceErrorMessage` from src/error-handler.js. -/
def getPersistenceErrorMessage (message : String) : String :=
  if strIncludes message "permission" || strIncludes message "EACCES" then
    "Permission denied when trying to save configuration file."
  else if strIncludes message "ENOSPC" then
    "Not enough disk space to save configuration file."
  else "Failed to save configuration changes."

/-- Embedding of `getPersistenceErrorSuggestions` from src/error-handler.js: empty unless
the message mentions a permission problem or a full disk. -/
def getPersistenceErrorSuggestions (message : String) : List String :=
  (if strIncludes message "permission" then
     ["Check file and directory permissions",
      "Ensure you have write access to the configuration file"]
   else []) ++
  (if strIncludes message "ENOSPC" then
     ["Free up disk space"]
   else [])

/-- Normalization of an error message as JavaScript
evaluates the expression error.message with a fallback: an empty message is
replaced by "Unknown error". -/
def normMsg (msg : String) : String :=
  if msg = "" then "Unknown error" else msg

/-- The branch cascade of `categorizeError` as a function of the already
normalized message text. -/
def categorizeErrorMsg (message : String) (ctx : Ctx) : ClassifiedError :=
  if strIncludes message "Configuration" || strIncludes message "Invalid JSON" ||
     strIncludes message "Missing required field" ||
     strIncludes message "Config load failed" ||
     (strIncludes message "not found" && ctx.ctype = "config") then
    { etype := "CONFIG_ERROR", severity := .CRITICAL, category := "Configuration"
      userMessage := getConfigErrorMessage message
      technicalMessage := message
      suggestions := getConfigErrorSuggestions message }
  else if strIncludes message "Chrome" &&
          (strIncludes message "launch" || strIncludes message "port" ||
           strIncludes message "debug") then
    { etype := "CHROME_ERROR", severity := .CRITICAL, category := "Chrome Browser"
      userMessage := getChromeErrorMessage message
      technicalMessage := message
      suggestions := getChromeErrorSuggestions message }
  else if strIncludes message "connect" || strIncludes message "CDP" ||
          strIncludes message "browser" then
    { etype := "BROWSER_ERROR", severity := .CRITICAL, category := "Browser Connection"
      userMessage := getBrowserErrorMessage message
      technicalMessage := message
      suggestions := getBrowserErrorSuggestions message }
  else if strIncludes message "Navigation" || strIncludes message "timeout" ||
          strIncludes message "net::ERR" || strIncludes message "load" then
    { etype := if ctx.operation = "processMonitoringTarget" then "TARGET_ERROR"
               else "PAGE_ERROR"
      severity := .HIGH, category := "Page Navigation"
      userMessage := getPageErrorMessage message
      technicalMessage := message
      suggestions := getPageErrorSuggestions message }
  else if strIncludes message "selector" || strIncludes message "element" ||
          strIncludes message "textContent" || strIncludes message "extract" then
    { etype := "EXTRACTION_ERROR", severity := .MEDIUM, category := "Element Extraction"
      userMessage := getExtractionErrorMessage message
      technicalMessage := message
      suggestions := getExtractionErrorSuggestions message }
  else if strIncludes message "Slack" || strIncludes message "webhook" ||
          strIncludes message "notification" then
    { etype := "NOTIFICATION_ERROR", severity := .MEDIUM, category := "Slack Notification"
      userMessage := getNotificationErrorMessage message
      technicalMessage := message
      suggestions := getNotificationErrorSuggestions message }
  else if strIncludes message "persist" || strIncludes message "write" ||
          strIncludes message "permission" || strIncludes message "EACCES" then
    { etype := "PERSISTENCE_ERROR", severity := .CRITICAL, category := "File Operations"
      userMessage := getPersistenceErrorMessage message
      technicalMessage := message
      suggestions := getPersistenceErrorSuggestions message }
  else
    { etype := "WORKFLOW_ERROR", severity := .HIGH, category := "General"
      userMessage := "An unexpected error occurred: " ++ message
      technicalMessage := message
      suggestions := ["Check the logs for more details",
                      "Try running the command again"] }

/-- Embedding of `ErrorHandler.categorizeError(error, context)` from src/error-handler.js:
normalize the empty message exactly as `error.message || "Unknown error"`
does, then run the first-match substring cascade. -/
def categorizeError (msg : String) (ctx : Ctx) : ClassifiedError :=
  categorizeErrorMsg (normMsg msg) ctx

/-- Embedding of `ErrorHandler.shouldStopWorkflow(categorizedError)` from
src/error-handler.js. -/
def shouldStopWorkflow (categorizedError : ClassifiedError) : Bool :=
  categorizedError.severity = Severity.CRITICAL

/-- Whether `ErrorHandler.handleError` actually displays the remediation
suggestions: it calls `showSuggestions` for CRITICAL and HIGH severities, and
`showSuggestions` prints only a non-empty list. -/
def showsSuggestions (c : ClassifiedError) : Bool :=
  (c.severity = Severity.CRITICAL || c.severity = Severity.HIGH) &&
    !c.suggestions.isEmpty

/-- The message of the error thrown by `PageMonitor.waitForSelector` when the
underlying wait times out (src/page-monitor.js): the raw `TimeoutError` is
replaced by a plain `Error` with this message. -/
def waitForSelectorTimeoutMessage (selector : String) (timeout : Nat) : String :=
  "Timeout waiting for selector \"" ++ selector ++ "\" after " ++
    toString timeout ++ "ms"

/-- Embedding of `PageMonitor.handleNavigationError(error, url, selector)` from
src/page-monitor.js, as a function of the caught error's `name` and
`message`: returns the message of the error that `navigateAndExtract`
re-throws. -/
def handleNavigationError (name msg url selector : String) : String :=
  let errorMessage := if msg = "" then "Unknown error" else msg
  if name = "TimeoutError" then
    if strIncludes errorMessage "Navigation timeout" then
      "Navigation timeout: Failed to load \"" ++ url ++ "\" within timeout period"
    else if strIncludes errorMessage "waiting for selector" then
      "Element timeout: Selector \"" ++ selector ++ "\" not found on \"" ++ url ++
        "\" within timeout period"
    else "Timeout error on \"" ++ url ++ "\": " ++ errorMessage
  else if strIncludes errorMessage "net::ERR_" then
    "Network error loading \"" ++ url ++ "\": " ++ errorMessage
  else if strIncludes errorMessage "Invalid CSS selector" then
    "Invalid CSS selector \"" ++ selector ++ "\": " ++ errorMessage
  else if strIncludes errorMessage "No text content found" then
    "No text content found for selector \"" ++ selector ++ "\" on \"" ++ url ++ "\""
  else
    "Page monitoring error for \"" ++ url ++ "\" with selector \"" ++ selector ++
      "\": " ++ errorMessage

/-- Message thrown out of `navigateAndExtract` when the page-ready
(navigation) phase times out: the rendering library raises a `TimeoutError`
whose message mentions "Navigation timeout", and `handleNavigationError`
rewrites it. -/
def navTimeoutThrownMessage (rawMsg url selector : String) : String :=
  handleNavigationError "TimeoutError" rawMsg url selector

/-- Message thrown out of `navigateAndExtract` when the selector-present
phase times out: `waitForSelector` has already replaced the `TimeoutError`
by a plain `Error` (name "Error"), which `handleNavigationError` then wraps
in its generic branch. -/
def selTimeoutThrownMessage (url selector : String) (timeout : Nat) : String :=
  handleNavigationError "Error" (waitForSelectorTimeoutMessage selector timeout)
    url selector

/-- Behaviour of one Playwright page handle as far as
`BrowserController.closePage` can observe it: whether `isClosed()` is true,
and whether `close()` would throw (with which message). -/
structure PageBeh where
  isClosedFlag : Bool
  closeThrows : Option String
deriving DecidableEq

/-- The body of the `try` block of `BrowserController.closePage` from
src/browser-controller.js: nothing to do for a null page, otherwise close
the page unless it is already closed; a failing `close()` throws. -/
def closePageBody (page : Option PageBeh) : Except String Unit :=
  match page with
  | none => .ok ()
  | some p =>
    if p.isClosedFlag then .ok ()
    else match p.closeThrows with
      | some m => .error m
      | none => .ok ()

/-- Embedding of `BrowserController.closePage` from src/browser-controller.js: the whole
body is wrapped in `try/catch`, and the catch only logs a warning. -/
def closePage (page : Option PageBeh) : Except String Unit :=
  match closePageBody page with
  | .ok u => .ok u
  | .error _ => .ok ()

/-- JavaScript `try { body } finally { fin }`: if the finally block itself
throws, its exception replaces the body's outcome. -/
def tryFinally {α : Type} (body : Except String α) (fin : Except String Unit) :
    Except String α :=
  match fin with
  | .error e => .error e
  | .ok _ => body

/-- Embedding of `MonitoringWorkflow.processMonitoringTarget(entry)` from detect-change.js,
as a function of the outcome of `createPage` and of the fetch/compare work
(`navigateAndExtract` plus `processEntry`).  When `createPage` fails, `page`
is still null and the finally block does nothing; otherwise the finally
block always runs `closePage` on the acquired page. -/
def processMonitoringTarget (entry : Entry) (createRes : Except String PageBeh)
    (fetchRes : Except String JSVal) : Except String ResultRec :=
  match createRes with
  | .error m => .error m
  | .ok p =>
    let body : Except String ResultRec :=
      match fetchRes with
      | .error m => .error m
      | .ok v => .ok (processEntry entry v)
    tryFinally body (closePage (some p))

/-- The key under which `StateManager.updateConfigValues` indexes both
change records and target entries: the string `url + "|" + css_selector`. -/
def changeKey (url css_selector : String) : String :=
  url ++ "|" ++ css_selector

/-- A change record as consumed by `StateManager.updateConfigValues`:
`change.entry` may be absent, and only records with `hasChanged` set count. -/
structure Change where
  entry : Option Entry
  hasChanged : Bool
  newValue : JSVal
deriving DecidableEq

/-- Embedding of `Map.prototype.set` on an association list: replace the value of an
existing key, otherwise append the new binding. -/
def mapSet (m : List (String × JSVal)) (k : String) (v : JSVal) :
    List (String × JSVal) :=
  match m with
  | [] => [(k, v)]
  | (k0, v0) :: rest =>
    if k0 = k then (k0, v) :: rest else (k0, v0) :: mapSet rest k v

/-- Embedding of `Map.prototype.get` on an association list. -/
def mapGet (m : List (String × JSVal)) (k : String) : Option JSVal :=
  match m with
  | [] => none
  | (k0, v0) :: rest => if k0 = k then some v0 else mapGet rest k

/-- The `changeMap` built by `StateManager.updateConfigValues`: skip records
without an entry or without `hasChanged`, otherwise `set` the new value
under the concatenated key (later records overwrite earlier ones). -/
def buildChangeMap (changes : List Change) : List (String × JSVal) :=
  changes.foldl
    (fun m c =>
      match c.entry with
      | none => m
      | some e =>
        if c.hasChanged then mapSet m (changeKey e.url e.css_selector) c.newValue
        else m)
    []

/-- Embedding of `StateManager.updateConfigValues(targets, changes)` from
src/state-manager.js: deep-copy the targets (the identity on immutable
values), then overwrite `current_value` of every entry whose key is in the
change map. -/
def updateConfigValues (targets : List Entry) (changes : List Change) :
    List Entry :=
  let changeMap := buildChangeMap changes
  targets.map fun e =>
    match mapGet changeMap (changeKey e.url e.css_selector) with
    | some v => { e with current_value := v }
    | none => e

/-- The value assigned to a key by the valid changes in order: the last
change with that key and `hasChanged` set wins.  Characterizes the change
map (see `mapGet_buildChangeMap`). -/
def lastValidChangeValue : List Change → String → Option JSVal
  | [], _ => none
  | c :: cs, k =>
    match lastValidChangeValue cs k with
    | some v => some v
    | none =>
      match c.entry with
      | none => none
      | some e =>
        if c.hasChanged && changeKey e.url e.css_selector = k then some c.newValue
        else none

/-- Externally visible actions of one run of
`MonitoringWorkflow.processMonitoringTargets`, in order of occurrence:
a record being appended to `session.results`, one notification attempt
(`slackNotifier.sendChangeNotification`), and the start of the persistence
call (`stateManager.updateAndPersist`). -/
inductive Event where
  | resultRecorded
  | notifyAttempt
  | persistStart
deriving DecidableEq

/-- Behaviour of one target as the per-target loop observes it: either
`processMonitoringTarget` returns the extracted value's outcome, or it
throws an error with the given message. -/
inductive TargetBeh where
  | fetched : JSVal → TargetBeh
  | failed : String → TargetBeh
deriving DecidableEq

/-- Behaviour of one `sendChangeNotification` call: resolved true, resolved
false, or rejected with an error message. -/
inductive NotifyBeh where
  | sent
  | declined
  | threw : String → NotifyBeh
deriving DecidableEq

/-- An entry of `session.errors`, keeping the categorized type and severity
together with the context operation that recorded it. -/
structure ErrRec where
  etype : String
  msg : String
  op : String
  severity : Severity
deriving DecidableEq

/-- A record of `session.results`: either a `processEntry` outcome or the
error record pushed for a failed target. -/
inductive SessionResult where
  | outcome : ResultRec → SessionResult
  | failedTarget : Entry → String → String → Severity → SessionResult
deriving DecidableEq

/-- The context the orchestrator passes to the error handler for a failed
target. -/
def targetCtx : Ctx := ⟨"target", "processMonitoringTarget"⟩

/-- The context for a failed notification. -/
def notifyCtx : Ctx := ⟨"notification", "sendChangeNotification"⟩

/-- The context for a failed persistence step. -/
def persistCtx : Ctx := ⟨"persistence", "updateAndPersist"⟩

/-- Whether a target behaviour makes the loop abort: it throws and the
classified error satisfies `shouldStopWorkflow`. -/
def isCriticalBeh : TargetBeh → Bool
  | .fetched _ => false
  | .failed m => shouldStopWorkflow (categorizeError m targetCtx)

/-- Output of the per-target loop (step 1 of
`processMonitoringTargets`). -/
structure LoopOut where
  results : List SessionResult
  errors : List ErrRec
  changes : List ResultRec
  trace : List Event
  aborted : Option String
deriving DecidableEq

/-- Step 1 of `MonitoringWorkflow.processMonitoringTargets`: process the
targets in order; a returned result is pushed to `session.results` (and to
the change batch when `hasChanged`); a thrown error is classified, an error
record is pushed to both `session.results` and `session.errors`, and the
loop re-throws (stops) exactly when `shouldStopWorkflow` holds for the
classification. -/
def processTargetsLoop : List (Entry × TargetBeh) → LoopOut
  | [] => { results := [], errors := [], changes := [], trace := [], aborted := none }
  | (e, b) :: rest =>
    match b with
    | .fetched v =>
      let r := processEntry e v
      let tail := processTargetsLoop rest
      { results := .outcome r :: tail.results
        errors := tail.errors
        changes := if r.hasChanged then r :: tail.changes else tail.changes
        trace := .resultRecorded :: tail.trace
        aborted := tail.aborted }
    | .failed m =>
      let ce := categorizeError m targetCtx
      if shouldStopWorkflow ce then
        { results := [.failedTarget e m ce.etype ce.severity]
          errors := [⟨ce.etype, m, targetCtx.operation, ce.severity⟩]
          changes := []
          trace := [.resultRecorded]
          aborted := some m }
      else
        let tail := processTargetsLoop rest
        { results := .failedTarget e m ce.etype ce.severity :: tail.results
          errors := ⟨ce.etype, m, targetCtx.operation, ce.severity⟩ :: tail.errors
          changes := tail.changes
          trace := .resultRecorded :: tail.trace
          aborted := tail.aborted }

/-- Embedding of `MonitoringWorkflow.sendNotificationsForChanges(changes)` from
detect-change.js: one notify attempt per change, in order; a rejected
attempt is classified and recorded on `session.errors`, but never stops the
remaining attempts.  Returns the produced events and error records. -/
def sendNotificationsForChanges (nb : Nat → NotifyBeh) :
    List ResultRec → Nat → List Event × List ErrRec
  | [], _ => ([], [])
  | _ :: cs, i =>
    let tail := sendNotificationsForChanges nb cs (i + 1)
    (Event.notifyAttempt :: tail.1,
     match nb i with
     | .threw m =>
       let ce := categorizeError m notifyCtx
       ⟨ce.etype, m, notifyCtx.operation, ce.severity⟩ :: tail.2
     | _ => tail.2)

/-- Terminal outcome of `processMonitoringTargets`: normal return, re-thrown
per-target error (loop aborted), or re-thrown persistence error. -/
inductive RunOutcome where
  | completed
  | abortedLoop : String → RunOutcome
  | persistFailed : String → RunOutcome
deriving DecidableEq

/-- Whether a run outcome is the loop-abort case. -/
def RunOutcome.isAborted : RunOutcome → Bool
  | .abortedLoop _ => true
  | _ => false

/-- The observable state of one `processMonitoringTargets` run. -/
structure WorkflowOut where
  results : List SessionResult
  errors : List ErrRec
  changes : List ResultRec
  trace : List Event
  outcome : RunOutcome
deriving DecidableEq

/-- Embedding of `MonitoringWorkflow.processMonitoringTargets(targets)` from
detect-change.js: run the per-target loop; if it threw, the error
propagates.  Otherwise, step 2 sends notifications only when at least one
change was detected and a notifier is configured; step 3 calls
`updateAndPersist` whenever at least one change was detected, records and
re-throws its failure.  `notifier` tells whether `this.slackNotifier` is
set, `nb` gives each notification attempt's behaviour, and `persistBeh` is
`some m` when `updateAndPersist` throws `m`. -/
def processMonitoringTargets (tbs : List (Entry × TargetBeh)) (notifier : Bool)
    (nb : Nat → NotifyBeh) (persistBeh : Option String) : WorkflowOut :=
  let L := processTargetsLoop tbs
  match L.aborted with
  | some m =>
    { results := L.results, errors := L.errors, changes := L.changes
      trace := L.trace, outcome := .abortedLoop m }
  | none =>
    let notif :=
      if L.changes.length > 0 && notifier then
        sendNotificationsForChanges nb L.changes 0
      else ([], [])
    if L.changes.length > 0 then
      match persistBeh with
      | none =>
        { results := L.results, errors := L.errors ++ notif.2
          changes := L.changes
          trace := L.trace ++ notif.1 ++ [.persistStart]
          outcome := .completed }
      | some m =>
        let ce := categorizeError m persistCtx
        { results := L.results
          errors := L.errors ++ notif.2 ++ [⟨ce.etype, m, persistCtx.operation, ce.severity⟩]
          changes := L.changes
          trace := L.trace ++ notif.1 ++ [.persistStart]
          outcome := .persistFailed m }
    else
      { results := L.results, errors := L.errors ++ notif.2
        changes := L.changes
        trace := L.trace ++ notif.1
        outcome := .completed }

/-! ## Lemmas about the state-update step -/

theorem mapGet_mapSet (m : List (String × JSVal)) (k q : String) (v : JSVal) :
    mapGet (mapSet m k v) q = if k = q then some v else mapGet m q := by
  induction m with
  | nil => simp [mapSet, mapGet]
  | cons kv rest ih =>
    obtain ⟨k0, v0⟩ := kv
    by_cases h0 : k0 = k
    · subst h0
      by_cases hq : k0 = q <;> simp [mapSet, mapGet, hq]
    · by_cases hq : k0 = q
      · subst hq
        have h0s : k ≠ k0 := Ne.symm h0
        simp [mapSet, mapGet, h0, h0s]
      · simp [mapSet, mapGet, h0, hq, ih]

theorem mapGet_foldl_changes (cs : List Change) (m : List (String × JSVal))
    (k : String) :
    mapGet
      (cs.foldl
        (fun m c =>
          match c.entry with
          | none => m
          | some e =>
            if c.hasChanged then
              mapSet m (changeKey e.url e.css_selector) c.newValue
            else m)
        m) k =
      match lastValidChangeValue cs k with
      | some v => some v
      | none => mapGet m k := by
  induction cs generalizing m with
  | nil => simp [lastValidChangeValue]
  | cons c cs ih =>
    simp only [List.foldl_cons, lastValidChangeValue]
    rw [ih]
    cases htail : lastValidChangeValue cs k with
    | some v => simp
    | none =>
      simp only
      cases hent : c.entry with
      | none => simp
      | some e =>
        by_cases hch : c.hasChanged
        · by_cases hkey : changeKey e.url e.css_selector = k
          · simp [hch, hkey, mapGet_mapSet]
          · simp [hch, hkey, mapGet_mapSet]
        · simp [hch]

theorem mapGet_buildChangeMap (cs : List Change) (k : String) :
    mapGet (buildChangeMap cs) k = lastValidChangeValue cs k := by
  unfold buildChangeMap
  rw [mapGet_foldl_changes]
  cases lastValidChangeValue cs k <;> simp [mapGet]

/-- The per-entry rewrite `updateConfigValues` applies, expressed through
`lastValidChangeValue`. -/
def applyLastChange (cs : List Change) (e : Entry) : Entry :=
  match lastValidChangeValue cs (changeKey e.url e.css_selector) with
  | some v => { e with current_value := v }
  | none => e

theorem updateConfigValues_eq_map (ts : List Entry) (cs : List Change) :
    updateConfigValues ts cs = ts.map (applyLastChange cs) := by
  unfold updateConfigValues
  induction ts with
  | nil => simp
  | cons e ts ih =>
    simp only [List.map_cons, List.cons.injEq]
    constructor
    · unfold applyLastChange
      rw [mapGet_buildChangeMap]
    · exact ih

theorem applyLastChange_key (cs : List Change) (e : Entry) :
    changeKey (applyLastChange cs e).url (applyLastChange cs e).css_selector =
      changeKey e.url e.css_selector := by
  unfold applyLastChange
  cases lastValidChangeValue cs (changeKey e.url e.css_selector) <;> rfl

theorem applyLastChange_idem (cs : List Change) (e : Entry) :
    applyLastChange cs (applyLastChange cs e) = applyLastChange cs e := by
  have hk := applyLastChange_key cs e
  unfold applyLastChange at hk ⊢
  rw [hk]
  cases h : lastValidChangeValue cs (changeKey e.url e.css_selector) <;> simp [h]

/-- Claim C4, counterexample: `updateConfigValues` does not match changes to
entries by the `(url, selector)` pair.  Concretely, the change's entry has
url "https://e.com/a" and selector "b|c" while the sole target has url
"https://e.com/a|b" and selector "c" — different pairs — yet the target's
stored value is overwritten with the change's new value instead of being
left untouched, because both concatenate to the same string key. -/
theorem updateConfigValues_pair_match_refuted :
    (("https://e.com/a" : String), ("b|c" : String)) ≠ ("https://e.com/a|b", "c") ∧
    updateConfigValues [⟨"https://e.com/a|b", "c", .vstr "old"⟩]
        [⟨some ⟨"https://e.com/a", "b|c", .vstr "x"⟩, true, .vstr "new"⟩] =
      [⟨"https://e.com/a|b", "c", .vstr "new"⟩] := by
  decide

/-- Claim C4 (amended): `updateConfigValues` returns a new list of the same
length in which entry `i` has its stored value set to the new value of the
last change with `hasChanged` whose entry's concatenated key
`url + "|" + css_selector` equals entry `i`'s key (other fields preserved),
and is returned unchanged when no change carries its key; changes whose key
matches no entry have no effect. -/
theorem updateConfigValues_last_key_match_wins :
    ∀ (ts : List Entry) (cs : List Change),
      (updateConfigValues ts cs).length = ts.length ∧
      ∀ (i : Nat) (h1 : i < ts.length) (h2 : i < (updateConfigValues ts cs).length),
        (lastValidChangeValue cs
            (changeKey (ts.get ⟨i, h1⟩).url (ts.get ⟨i, h1⟩).css_selector) = none →
          (updateConfigValues ts cs).get ⟨i, h2⟩ = ts.get ⟨i, h1⟩) ∧
        ∀ v,
          lastValidChangeValue cs
              (changeKey (ts.get ⟨i, h1⟩).url (ts.get ⟨i, h1⟩).css_selector) = some v →
            (updateConfigValues ts cs).get ⟨i, h2⟩ =
              { ts.get ⟨i, h1⟩ with current_value := v } := by
  intro ts cs
  refine ⟨by rw [updateConfigValues_eq_map]; simp, ?_⟩
  intro i h1 h2
  have hcongr : ∀ (l1 l2 : List Entry), l1 = l2 → ∀ (h3 : i < l1.length)
      (h4 : i < l2.length), l1.get ⟨i, h3⟩ = l2.get ⟨i, h4⟩ := by
    intro l1 l2 hl h3 h4
    subst hl
    rfl
  have h3 : i < (ts.map (applyLastChange cs)).length := by simpa using h1
  have hget : (updateConfigValues ts cs).get ⟨i, h2⟩ =
      applyLastChange cs (ts.get ⟨i, h1⟩) := by
    rw [hcongr _ _ (updateConfigValues_eq_map ts cs) h2 h3]
    exact List.get_map ..
  constructor
  · intro hnone
    rw [hget]
    unfold applyLastChange
    rw [hnone]
  · intro v hsome
    rw [hget]
    unfold applyLastChange
    rw [hsome]

/-- Claim C4 witness: applying the amended theorem at a concrete input — one
matching change updates the stored value, the non-matching entry is
untouched. -/
theorem updateConfigValues_last_key_match_wins_witness :
    (updateConfigValues
        [⟨"https://a.com", "#p", .vstr "a"⟩, ⟨"https://b.com", "#q", .vstr "b"⟩]
        [⟨some ⟨"https://a.com", "#p", .vstr "a"⟩, true, .vstr "n"⟩]).get
      ⟨0, by decide⟩ = ⟨"https://a.com", "#p", .vstr "n"⟩ ∧
    (updateConfigValues
        [⟨"https://a.com", "#p", .vstr "a"⟩, ⟨"https://b.com", "#q", .vstr "b"⟩]
        [⟨some ⟨"https://a.com", "#p", .vstr "a"⟩, true, .vstr "n"⟩]).get
      ⟨1, by decide⟩ = ⟨"https://b.com", "#q", .vstr "b"⟩ := by
  have h := updateConfigValues_last_key_match_wins
    [⟨"https://a.com", "#p", .vstr "a"⟩, ⟨"https://b.com", "#q", .vstr "b"⟩]
    [⟨some ⟨"https://a.com", "#p", .vstr "a"⟩, true, .vstr "n"⟩]
  exact ⟨((h.2 0 (by decide) (by decide)).2 (.vstr "n")) (by decide),
         (h.2 1 (by decide) (by decide)).1 (by decide)⟩

/-- Claim C9: `updateConfigValues` is idempotent — applying it to its own
output with the same changes returns the same list — and a change batch
whose keys match no entry leaves the target list exactly as it was. -/
theorem updateConfigValues_idempotent :
    ∀ (ts : List Entry) (cs : List Change),
      updateConfigValues (updateConfigValues ts cs) cs = updateConfigValues ts cs ∧
      ((∀ e ∈ ts,
          lastValidChangeValue cs (changeKey e.url e.css_selector) = none) →
        updateConfigValues ts cs = ts) := by
  intro ts cs
  constructor
  · rw [updateConfigValues_eq_map, updateConfigValues_eq_map, List.map_map]
    refine List.map_congr_left ?_
    intro e _
    exact applyLastChange_idem cs e
  · intro hnone
    rw [updateConfigValues_eq_map]
    have : ∀ e ∈ ts, applyLastChange cs e = e := by
      intro e he
      unfold applyLastChange
      rw [hnone e he]
    calc ts.map (applyLastChange cs) = ts.map id := List.map_congr_left this
      _ = ts := List.map_id ts

/-- Claim C9 witness: idempotence and the no-matching-changes case at a
concrete input. -/
theorem updateConfigValues_idempotent_witness :
    updateConfigValues
        (updateConfigValues [⟨"https://a.com", "#p", .vstr "a"⟩]
          [⟨some ⟨"https://b.com", "#q", .vstr "z"⟩, true, .vstr "w"⟩])
        [⟨some ⟨"https://b.com", "#q", .vstr "z"⟩, true, .vstr "w"⟩] =
      updateConfigValues [⟨"https://a.com", "#p", .vstr "a"⟩]
        [⟨some ⟨"https://b.com", "#q", .vstr "z"⟩, true, .vstr "w"⟩] ∧
    updateConfigValues [⟨"https://a.com", "#p", .vstr "a"⟩]
        [⟨some ⟨"https://b.com", "#q", .vstr "z"⟩, true, .vstr "w"⟩] =
      [⟨"https://a.com", "#p", .vstr "a"⟩] := by
  have h := updateConfigValues_idempotent [⟨"https://a.com", "#p", .vstr "a"⟩]
    [⟨some ⟨"https://b.com", "#q", .vstr "z"⟩, true, .vstr "w"⟩]
  exact ⟨h.1, h.2 (by decide)⟩

/-! ## Lemmas about the orchestrator loop and the run trace -/

theorem loop_trace_only_results (tbs : List (Entry × TargetBeh)) :
    ∀ x ∈ (processTargetsLoop tbs).trace, x = Event.resultRecorded := by
  induction tbs with
  | nil => simp [processTargetsLoop]
  | cons tb rest ih =>
    obtain ⟨e, b⟩ := tb
    cases b with
    | fetched v =>
      intro x hx
      simp only [processTargetsLoop, List.mem_cons] at hx
      rcases hx with h | h
      · exact h
      · exact ih x h
    | failed m =>
      by_cases hstop : shouldStopWorkflow (categorizeError m targetCtx)
      · intro x hx
        simp only [processTargetsLoop, hstop, if_true, List.mem_singleton] at hx
        exact hx
      · intro x hx
        simp only [processTargetsLoop, hstop, Bool.false_eq_true, if_false,
          List.mem_cons] at hx
        rcases hx with h | h
        · exact h
        · exact ih x h

theorem loop_results_length_of_complete (tbs : List (Entry × TargetBeh)) :
    (processTargetsLoop tbs).aborted = none →
      (processTargetsLoop tbs).results.length = tbs.length := by
  induction tbs with
  | nil => intro _; simp [processTargetsLoop]
  | cons tb rest ih =>
    obtain ⟨e, b⟩ := tb
    cases b with
    | fetched v =>
      intro h
      simp only [processTargetsLoop] at h ⊢
      simp [ih h]
    | failed m =>
      by_cases hstop : shouldStopWorkflow (categorizeError m targetCtx)
      · intro h
        simp [processTargetsLoop, hstop] at h
      · intro h
        simp only [processTargetsLoop, hstop, if_false] at h ⊢
        simp [ih h]

theorem loop_aborted_iff_any_critical (tbs : List (Entry × TargetBeh)) :
    (processTargetsLoop tbs).aborted.isSome =
      tbs.any fun x => isCriticalBeh x.2 := by
  induction tbs with
  | nil => simp [processTargetsLoop]
  | cons tb rest ih =>
    obtain ⟨e, b⟩ := tb
    cases b with
    | fetched v =>
      simp only [processTargetsLoop, List.any_cons]
      simpa [isCriticalBeh] using ih
    | failed m =>
      by_cases hstop : shouldStopWorkflow (categorizeError m targetCtx)
      · simp [processTargetsLoop, hstop, isCriticalBeh]
      · simp only [processTargetsLoop, hstop, if_false, List.any_cons]
        simpa [isCriticalBeh, hstop] using ih

theorem loop_abort_position (pre : List (Entry × TargetBeh))
    (x : Entry × TargetBeh) (post : List (Entry × TargetBeh))
    (hpre : ∀ y ∈ pre, isCriticalBeh y.2 = false)
    (hx : isCriticalBeh x.2 = true) :
    (processTargetsLoop (pre ++ x :: post)).aborted.isSome = true ∧
      (processTargetsLoop (pre ++ x :: post)).results.length = pre.length + 1 := by
  induction pre with
  | nil =>
    obtain ⟨e, b⟩ := x
    cases b with
    | fetched v => simp [isCriticalBeh] at hx
    | failed m =>
      have hstop : shouldStopWorkflow (categorizeError m targetCtx) = true := by
        simpa [isCriticalBeh] using hx
      simp [processTargetsLoop, hstop]
  | cons tb rest ih =>
    obtain ⟨e, b⟩ := tb
    have hb : isCriticalBeh b = false := hpre (e, b) (by simp)
    have hrest : ∀ y ∈ rest, isCriticalBeh y.2 = false := by
      intro y hy
      exact hpre y (by simp [hy])
    have ihr := ih hrest
    cases b with
    | fetched v =>
      simp only [List.cons_append, processTargetsLoop]
      simp [ihr.1, ihr.2]
    | failed m =>
      have hstop : shouldStopWorkflow (categorizeError m targetCtx) = false := by
        simpa [isCriticalBeh] using hb
      simp only [List.cons_append, processTargetsLoop, hstop, if_false]
      simp [ihr.1, ihr.2]

theorem loop_errors_op (tbs : List (Entry × TargetBeh)) :
    ∀ er ∈ (processTargetsLoop tbs).errors, er.op = "processMonitoringTarget" := by
  induction tbs with
  | nil => simp [processTargetsLoop]
  | cons tb rest ih =>
    obtain ⟨e, b⟩ := tb
    cases b with
    | fetched v =>
      intro er her
      simp only [processTargetsLoop] at her
      exact ih er her
    | failed m =>
      by_cases hstop : shouldStopWorkflow (categorizeError m targetCtx)
      · intro er her
        simp only [processTargetsLoop, hstop, if_true, List.mem_singleton] at her
        subst her
        rfl
      · intro er her
        simp only [processTargetsLoop, hstop, Bool.false_eq_true, if_false,
          List.mem_cons] at her
        rcases her with h | h
        · subst h
          rfl
        · exact ih er h

theorem send_trace_replicate (nb : Nat → NotifyBeh) (cs : List ResultRec)
    (i : Nat) :
    (sendNotificationsForChanges nb cs i).1 =
      List.replicate cs.length Event.notifyAttempt := by
  induction cs generalizing i with
  | nil => simp [sendNotificationsForChanges]
  | cons c cs ih =>
    simp [sendNotificationsForChanges, List.replicate_succ, ih]

theorem send_errors_op (nb : Nat → NotifyBeh) (cs : List ResultRec) (i : Nat) :
    ∀ er ∈ (sendNotificationsForChanges nb cs i).2,
      er.op = "sendChangeNotification" := by
  induction cs generalizing i with
  | nil => simp [sendNotificationsForChanges]
  | cons c cs ih =>
    intro er her
    simp only [sendNotificationsForChanges] at her
    cases hnb : nb i with
    | threw m =>
      rw [hnb] at her
      simp only [List.mem_cons] at her
      rcases her with h | h
      · subst h
        rfl
      · exact ih (i + 1) er h
    | sent =>
      rw [hnb] at her
      exact ih (i + 1) er her
    | declined =>
      rw [hnb] at her
      exact ih (i + 1) er her

theorem loop_no_notify_no_persist (tbs : List (Entry × TargetBeh)) :
    Event.notifyAttempt ∉ (processTargetsLoop tbs).trace ∧
      Event.persistStart ∉ (processTargetsLoop tbs).trace := by
  constructor
  · intro hmem
    exact absurd (loop_trace_only_results tbs _ hmem) (by decide)
  · intro hmem
    exact absurd (loop_trace_only_results tbs _ hmem) (by decide)

theorem workflow_changes_eq (tbs : List (Entry × TargetBeh)) (notifier : Bool)
    (nb : Nat → NotifyBeh) (pb : Option String) :
    (processMonitoringTargets tbs notifier nb pb).changes =
      (processTargetsLoop tbs).changes := by
  cases habort : (processTargetsLoop tbs).aborted with
  | some m => simp [processMonitoringTargets, habort]
  | none =>
    by_cases hch : (processTargetsLoop tbs).changes.length > 0 <;>
      cases pb <;> simp [processMonitoringTargets, habort, hch]

theorem workflow_outcome_aborted (tbs : List (Entry × TargetBeh))
    (notifier : Bool) (nb : Nat → NotifyBeh) (pb : Option String) :
    (processMonitoringTargets tbs notifier nb pb).outcome.isAborted =
      (processTargetsLoop tbs).aborted.isSome := by
  cases habort : (processTargetsLoop tbs).aborted with
  | some m => simp [processMonitoringTargets, habort, RunOutcome.isAborted]
  | none =>
    by_cases hch : (processTargetsLoop tbs).changes.length > 0 <;>
      cases pb <;> simp [processMonitoringTargets, habort, hch, RunOutcome.isAborted]

theorem workflow_trace_eq (tbs : List (Entry × TargetBeh)) (notifier : Bool)
    (nb : Nat → NotifyBeh) (pb : Option String) :
    (processMonitoringTargets tbs notifier nb pb).trace =
      (processTargetsLoop tbs).trace ++
        (if (processTargetsLoop tbs).aborted = none then
          (if (processTargetsLoop tbs).changes.length > 0 && notifier then
            List.replicate (processTargetsLoop tbs).changes.length
              Event.notifyAttempt
          else []) ++
            (if (processTargetsLoop tbs).changes.length > 0 then
              [Event.persistStart]
            else [])
        else []) := by
  cases habort : (processTargetsLoop tbs).aborted with
  | some m => simp [processMonitoringTargets, habort]
  | none =>
    by_cases hch : (processTargetsLoop tbs).changes.length > 0
    · cases pb <;> cases notifier <;>
        simp [processMonitoringTargets, habort, hch, send_trace_replicate]
    · cases pb <;> cases notifier <;>
        simp [processMonitoringTargets, habort, hch]

theorem workflow_errors_op (tbs : List (Entry × TargetBeh)) (notifier : Bool)
    (nb : Nat → NotifyBeh) (pb : Option String) :
    ∀ er ∈ (processMonitoringTargets tbs notifier nb pb).errors,
      er.op = "processMonitoringTarget" ∨
      er.op = "sendChangeNotification" ∨ er.op = "updateAndPersist" := by
  have hloop := loop_errors_op tbs
  have hsend := send_errors_op nb (processTargetsLoop tbs).changes 0
  cases habort : (processTargetsLoop tbs).aborted with
  | some m =>
    intro er her
    simp only [processMonitoringTargets, habort] at her
    exact Or.inl (hloop er her)
  | none =>
    intro er her
    by_cases hch : (processTargetsLoop tbs).changes.length > 0
    · cases pb with
      | none =>
        cases notifier with
        | false =>
          simp [processMonitoringTargets, habort, hch] at her
          exact Or.inl (hloop er her)
        | true =>
          simp [processMonitoringTargets, habort, hch] at her
          rcases her with h | h
          · exact Or.inl (hloop er h)
          · exact Or.inr (Or.inl (hsend er h))
      | some m =>
        cases notifier with
        | false =>
          simp [processMonitoringTargets, habort, hch] at her
          rcases her with h | h
          · exact Or.inl (hloop er h)
          · subst h
            exact Or.inr (Or.inr rfl)
        | true =>
          simp [processMonitoringTargets, habort, hch] at her
          rcases her with h | h | h
          · exact Or.inl (hloop er h)
          · exact Or.inr (Or.inl (hsend er h))
          · subst h
            exact Or.inr (Or.inr rfl)
    · cases pb <;> cases notifier <;>
        simp [processMonitoringTargets, habort, hch] at her <;>
        exact Or.inl (hloop er her)

/-- Claim C1: the run trace always splits into a first part with no
persistence start and a second part with no notification attempt, so every
notification attempt precedes the persistence call; when the loop completed
and a notifier is configured, the trace holds exactly one notification
attempt per detected change, and persistence starts whenever at least one
change was detected; and in a run with zero detected changes neither a
notification attempt nor a persistence start occurs. -/
theorem notify_completes_before_persist :
    ∀ (tbs : List (Entry × TargetBeh)) (notifier : Bool) (nb : Nat → NotifyBeh)
      (pb : Option String),
      (∃ pre post,
        (processMonitoringTargets tbs notifier nb pb).trace = pre ++ post ∧
        Event.persistStart ∉ pre ∧ Event.notifyAttempt ∉ post) ∧
      ((processMonitoringTargets tbs notifier nb pb).outcome.isAborted = false →
        (processMonitoringTargets tbs notifier nb pb).changes ≠ [] →
        Event.persistStart ∈ (processMonitoringTargets tbs notifier nb pb).trace ∧
        (notifier = true →
          ((processMonitoringTargets tbs notifier nb pb).trace.count
              Event.notifyAttempt) =
            (processMonitoringTargets tbs notifier nb pb).changes.length)) ∧
      ((processMonitoringTargets tbs notifier nb pb).changes = [] →
        Event.notifyAttempt ∉ (processMonitoringTargets tbs notifier nb pb).trace ∧
        Event.persistStart ∉ (processMonitoringTargets tbs notifier nb pb).trace) := by
  intro tbs notifier nb pb
  have htr := workflow_trace_eq tbs notifier nb pb
  have hch := workflow_changes_eq tbs notifier nb pb
  have hab := workflow_outcome_aborted tbs notifier nb pb
  have hloop := loop_no_notify_no_persist tbs
  refine ⟨?_, ?_, ?_⟩
  · refine ⟨(processTargetsLoop tbs).trace ++
      (if (processTargetsLoop tbs).aborted = none then
        (if (processTargetsLoop tbs).changes.length > 0 && notifier then
          List.replicate (processTargetsLoop tbs).changes.length
            Event.notifyAttempt
        else [])
      else []),
      (if (processTargetsLoop tbs).aborted = none then
        (if (processTargetsLoop tbs).changes.length > 0 then
          [Event.persistStart]
        else [])
      else []), ?_, ?_, ?_⟩
    · rw [htr]
      cases (processTargetsLoop tbs).aborted <;> simp
    · intro hmem
      rw [List.mem_append] at hmem
      rcases hmem with h | h
      · exact hloop.2 h
      · cases hif : (processTargetsLoop tbs).aborted with
        | none =>
          rw [hif] at h
          simp only [if_true] at h
          by_cases hb : (processTargetsLoop tbs).changes.length > 0 && notifier
          · rw [if_pos hb] at h
            have := List.eq_of_mem_replicate h
            exact absurd this (by decide)
          · rw [if_neg hb] at h
            simp at h
        | some m =>
          rw [hif] at h
          simp at h
    · intro hmem
      cases hif : (processTargetsLoop tbs).aborted with
      | none =>
        rw [hif] at hmem
        simp only [if_true] at hmem
        by_cases hb : (processTargetsLoop tbs).changes.length > 0
        · rw [if_pos hb] at hmem
          simp at hmem
        · rw [if_neg hb] at hmem
          simp at hmem
      | some m =>
        rw [hif] at hmem
        simp at hmem
  · intro habf0 hchne
    rw [hab] at habf0
    have habf : (processTargetsLoop tbs).aborted = none := by
      cases hcase : (processTargetsLoop tbs).aborted with
      | none => rfl
      | some m => rw [hcase] at habf0; simp at habf0
    rw [hch] at hchne
    have hlen : (processTargetsLoop tbs).changes.length > 0 :=
      List.length_pos.mpr hchne
    constructor
    · rw [htr, habf]
      simp [hlen]
    · intro hn
      rw [htr, habf, hch]
      subst hn
      simp only [hlen, if_true, Bool.and_true, gt_iff_lt, ite_true]
      rw [List.count_append, List.count_append]
      have h1 : (processTargetsLoop tbs).trace.count Event.notifyAttempt = 0 :=
        List.count_eq_zero.mpr hloop.1
      simp [h1, List.count_replicate]
  · intro hchz
    rw [hch] at hchz
    have hlen : ¬(processTargetsLoop tbs).changes.length > 0 := by
      simp [hchz]
    constructor
    · rw [htr]
      intro hmem
      rw [List.mem_append] at hmem
      rcases hmem with h | h
      · exact hloop.1 h
      · cases hif : (processTargetsLoop tbs).aborted with
        | none =>
          rw [hif] at h
          simp [hlen, hchz] at h
        | some m =>
          rw [hif] at h
          simp at h
    · rw [htr]
      intro hmem
      rw [List.mem_append] at hmem
      rcases hmem with h | h
      · exact hloop.2 h
      · cases hif : (processTargetsLoop tbs).aborted with
        | none =>
          rw [hif] at h
          simp [hlen, hchz] at h
        | some m =>
          rw [hif] at h
          simp at h

/-- Claim C1 witness: a run with one changed target, a configured notifier
and a successful persistence performs its persistence after exactly one
notification attempt. -/
theorem notify_completes_before_persist_witness :
    Event.persistStart ∈
      (processMonitoringTargets
        [(⟨"https://a.com", "#p", .vstr "a"⟩, .fetched (.vstr "b"))] true
        (fun _ => .sent) none).trace ∧
    ((processMonitoringTargets
        [(⟨"https://a.com", "#p", .vstr "a"⟩, .fetched (.vstr "b"))] true
        (fun _ => .sent) none).trace.count Event.notifyAttempt) =
      (processMonitoringTargets
        [(⟨"https://a.com", "#p", .vstr "a"⟩, .fetched (.vstr "b"))] true
        (fun _ => .sent) none).changes.length := by
  have h := notify_completes_before_persist
    [(⟨"https://a.com", "#p", .vstr "a"⟩, .fetched (.vstr "b"))] true
    (fun _ => .sent) none
  exact ⟨(h.2.1 (by decide) (by decide)).1, (h.2.1 (by decide) (by decide)).2 rfl⟩

/-- Claim C2: `shouldStopWorkflow` holds exactly for CRITICAL severity, and
the per-target loop aborts exactly when some target's failure classifies as
CRITICAL (every non-critical failure lets the loop continue). -/
theorem critical_iff_stop_workflow :
    (∀ c : ClassifiedError,
      shouldStopWorkflow c = true ↔ c.severity = Severity.CRITICAL) ∧
    ∀ tbs : List (Entry × TargetBeh),
      (processTargetsLoop tbs).aborted.isSome =
        tbs.any fun x => isCriticalBeh x.2 := by
  constructor
  · intro c
    simp [shouldStopWorkflow]
  · exact loop_aborted_iff_any_critical

/-- Claim C2 witness: a configuration-integrity failure classifies CRITICAL
and aborts the loop; a page-timeout failure does not. -/
theorem critical_iff_stop_workflow_witness :
    shouldStopWorkflow (categorizeError "Configuration bad" targetCtx) = true ∧
    (processTargetsLoop
      [(⟨"https://a.com", "#p", .vstr "a"⟩, .failed "Configuration bad")]).aborted.isSome =
      true ∧
    (processTargetsLoop
      [(⟨"https://a.com", "#p", .vstr "a"⟩, .failed "timeout z")]).aborted.isSome =
      false := by
  have h := critical_iff_stop_workflow
  refine ⟨(h.1 (categorizeError "Configuration bad" targetCtx)).mpr (by decide),
    ?_, ?_⟩
  · rw [h.2]
    decide
  · rw [h.2]
    decide

/-- Claim C3: when the loop completes (no abort), every target contributed
exactly one record, so `results.length` equals the number of targets; and
when the first CRITICAL classification happens after `pre` non-critical
targets, the critical target still appends its own record, the loop aborts,
and `results.length = pre.length + 1`, which is strictly below the target
count whenever targets remain after the critical one. -/
theorem one_result_per_attempted_target :
    ∀ tbs : List (Entry × TargetBeh),
      ((processTargetsLoop tbs).aborted = none →
        (processTargetsLoop tbs).results.length = tbs.length) ∧
      ∀ pre x post, tbs = pre ++ x :: post →
        (∀ y ∈ pre, isCriticalBeh y.2 = false) → isCriticalBeh x.2 = true →
        (processTargetsLoop tbs).aborted.isSome = true ∧
        (processTargetsLoop tbs).results.length = pre.length + 1 ∧
        (post ≠ [] →
          (processTargetsLoop tbs).results.length < tbs.length) := by
  intro tbs
  refine ⟨loop_results_length_of_complete tbs, ?_⟩
  intro pre x post heq hpre hx
  subst heq
  have h := loop_abort_position pre x post hpre hx
  refine ⟨h.1, h.2, ?_⟩
  intro hpost
  rw [h.2]
  have : 0 < post.length := List.length_pos.mpr hpost
  simp only [List.length_append, List.length_cons]
  omega

/-- Claim C3 witness: a complete two-target run yields two records; a
three-target run whose second target fails CRITICALLY stops with two
records, short of the three targets. -/
theorem one_result_per_attempted_target_witness :
    (processTargetsLoop
      [(⟨"https://a.com", "#p", .vstr "a"⟩, .fetched (.vstr "b")),
       (⟨"https://b.com", "#q", .vstr "c"⟩, .failed "timeout z")]).results.length =
      2 ∧
    (processTargetsLoop
      [(⟨"https://a.com", "#p", .vstr "a"⟩, .fetched (.vstr "b")),
       (⟨"https://b.com", "#q", .vstr "c"⟩, .failed "Configuration bad"),
       (⟨"https://c.com", "#r", .vstr "d"⟩, .fetched (.vstr "e"))]).results.length =
      2 ∧
    (processTargetsLoop
      [(⟨"https://a.com", "#p", .vstr "a"⟩, .fetched (.vstr "b")),
       (⟨"https://b.com", "#q", .vstr "c"⟩, .failed "Configuration bad"),
       (⟨"https://c.com", "#r", .vstr "d"⟩, .fetched (.vstr "e"))]).results.length <
      3 := by
  have h1 := one_result_per_attempted_target
    [(⟨"https://a.com", "#p", .vstr "a"⟩, .fetched (.vstr "b")),
     (⟨"https://b.com", "#q", .vstr "c"⟩, .failed "timeout z")]
  have h2 := one_result_per_attempted_target
    [(⟨"https://a.com", "#p", .vstr "a"⟩, .fetched (.vstr "b")),
     (⟨"https://b.com", "#q", .vstr "c"⟩, .failed "Configuration bad"),
     (⟨"https://c.com", "#r", .vstr "d"⟩, .fetched (.vstr "e"))]
  have h2app := h2.2 [(⟨"https://a.com", "#p", .vstr "a"⟩, .fetched (.vstr "b"))]
    (⟨"https://b.com", "#q", .vstr "c"⟩, .failed "Configuration bad")
    [(⟨"https://c.com", "#r", .vstr "d"⟩, .fetched (.vstr "e"))]
    rfl (by decide) (by decide)
  exact ⟨h1.1 (by decide), h2app.2.1, h2app.2.2 (by decide)⟩

/-- Claim C10: in a completed run with at least one detected change but no
configured notifier, no notification attempt occurs and no error record
stems from the notification step, while the persistence call still starts. -/
theorem persist_runs_without_notifier :
    ∀ (tbs : List (Entry × TargetBeh)) (nb : Nat → NotifyBeh)
      (pb : Option String),
      (processMonitoringTargets tbs false nb pb).outcome.isAborted = false →
      (processMonitoringTargets tbs false nb pb).changes ≠ [] →
      Event.notifyAttempt ∉ (processMonitoringTargets tbs false nb pb).trace ∧
      (∀ er ∈ (processMonitoringTargets tbs false nb pb).errors,
        er.op ≠ "sendChangeNotification") ∧
      Event.persistStart ∈ (processMonitoringTargets tbs false nb pb).trace := by
  intro tbs nb pb habf0 hchne
  have htr := workflow_trace_eq tbs false nb pb
  have hch := workflow_changes_eq tbs false nb pb
  have hab := workflow_outcome_aborted tbs false nb pb
  have hloop := loop_no_notify_no_persist tbs
  rw [hab] at habf0
  have habf : (processTargetsLoop tbs).aborted = none := by
    cases hcase : (processTargetsLoop tbs).aborted with
    | none => rfl
    | some m => rw [hcase] at habf0; simp at habf0
  rw [hch] at hchne
  have hlen : (processTargetsLoop tbs).changes.length > 0 :=
    List.length_pos.mpr hchne
  refine ⟨?_, ?_, ?_⟩
  · rw [htr, habf]
    simp only [if_true, Bool.and_false, ite_false, List.nil_append, hlen,
      gt_iff_lt, ite_true]
    intro hmem
    rw [List.mem_append] at hmem
    rcases hmem with h | h
    · exact hloop.1 h
    · simp at h
  · intro er her
    have hops := workflow_errors_op tbs false nb pb er her
    cases habort2 : (processTargetsLoop tbs).aborted with
    | some m =>
      rw [habort2] at habf
      simp at habf
    | none =>
      rcases hops with h | h | h
      · rw [h]
        decide
      · exfalso
        cases pb with
        | none =>
          simp [processMonitoringTargets, habort2, hlen] at her
          have := loop_errors_op tbs er her
          rw [this] at h
          simp at h
        | some m =>
          simp [processMonitoringTargets, habort2, hlen] at her
          rcases her with h2 | h2
          · have := loop_errors_op tbs er h2
            rw [this] at h
            simp at h
          · subst h2
            simp [persistCtx] at h
      · rw [h]
        decide
  · rw [htr, habf]
    simp [hlen]

/-- Claim C10 witness: one changed target, no notifier, persistence
succeeds — no notification attempt, no notification error, persistence
starts. -/
theorem persist_runs_without_notifier_witness :
    Event.notifyAttempt ∉
      (processMonitoringTargets
        [(⟨"https://a.com", "#p", .vstr "a"⟩, .fetched (.vstr "b"))] false
        (fun _ => .sent) none).trace ∧
    Event.persistStart ∈
      (processMonitoringTargets
        [(⟨"https://a.com", "#p", .vstr "a"⟩, .fetched (.vstr "b"))] false
        (fun _ => .sent) none).trace := by
  have h := persist_runs_without_notifier
    [(⟨"https://a.com", "#p", .vstr "a"⟩, .fetched (.vstr "b"))]
    (fun _ => .sent) none (by decide) (by decide)
  exact ⟨h.1, h.2.2⟩

/-- Claim C5: `closePage` always returns normally — a failing page close is
swallowed — and `processMonitoringTarget` therefore throws exactly the
`createPage` or fetch/compare error, unmodified, independently of how the
page close behaves; on success it returns the `processEntry` outcome. -/
theorem cleanup_never_masks_fetch_error :
    (∀ page : Option PageBeh, closePage page = Except.ok ()) ∧
    (∀ (e : Entry) (m : String) (fr : Except String JSVal),
      processMonitoringTarget e (.error m) fr = .error m) ∧
    (∀ (e : Entry) (p : PageBeh) (m : String),
      processMonitoringTarget e (.ok p) (.error m) = .error m) ∧
    (∀ (e : Entry) (p : PageBeh) (v : JSVal),
      processMonitoringTarget e (.ok p) (.ok v) = .ok (processEntry e v)) := by
  have hclose : ∀ page : Option PageBeh, closePage page = Except.ok () := by
    intro page
    cases page with
    | none => rfl
    | some p =>
      cases hc : p.isClosedFlag with
      | true => simp [closePage, closePageBody, hc]
      | false =>
        cases ht : p.closeThrows with
        | none => simp [closePage, closePageBody, hc, ht]
        | some m => simp [closePage, closePageBody, hc, ht]
  refine ⟨hclose, ?_, ?_, ?_⟩
  · intro e m fr
    rfl
  · intro e p m
    simp [processMonitoringTarget, tryFinally, hclose (some p)]
  · intro e p v
    simp [processMonitoringTarget, tryFinally, hclose (some p)]

/-- Claim C5 witness: even a page whose close call would throw neither
masks the fetch error nor perturbs the returned outcome. -/
theorem cleanup_never_masks_fetch_error_witness :
    closePage (some ⟨false, some "boom"⟩) = Except.ok () ∧
    processMonitoringTarget ⟨"https://a.com", "#p", .vstr "a"⟩
        (.ok ⟨false, some "boom"⟩) (.error "timeout z") = .error "timeout z" ∧
    processMonitoringTarget ⟨"https://a.com", "#p", .vstr "a"⟩
        (.error "Failed to create page: x") (.ok (.vstr "b")) =
      .error "Failed to create page: x" := by
  have h := cleanup_never_masks_fetch_error
  exact ⟨h.1 (some ⟨false, some "boom"⟩),
    h.2.2.1 ⟨"https://a.com", "#p", .vstr "a"⟩ ⟨false, some "boom"⟩ "timeout z",
    h.2.1 ⟨"https://a.com", "#p", .vstr "a"⟩ "Failed to create page: x"
      (.ok (.vstr "b"))⟩

/-- Claim C6: at a representative target (url "https://example.com",
selector "#price", the source's default timeouts), the navigation-phase
timeout and the selector-phase timeout leave `navigateAndExtract` as
distinct error messages, and `categorizeError` routes the former to the
Page Navigation category with HIGH severity (re-tagged `TARGET_ERROR` in
the per-target context) and the latter to the Element Extraction category
with MEDIUM severity (`EXTRACTION_ERROR`). -/
theorem timeout_kinds_routed_distinctly :
    navTimeoutThrownMessage "Navigation timeout of 30000 ms exceeded"
        "https://example.com" "#price" ≠
      selTimeoutThrownMessage "https://example.com" "#price" 10000 ∧
    (categorizeError
        (navTimeoutThrownMessage "Navigation timeout of 30000 ms exceeded"
          "https://example.com" "#price") targetCtx).category =
      "Page Navigation" ∧
    (categorizeError
        (navTimeoutThrownMessage "Navigation timeout of 30000 ms exceeded"
          "https://example.com" "#price") targetCtx).severity = .HIGH ∧
    (categorizeError
        (navTimeoutThrownMessage "Navigation timeout of 30000 ms exceeded"
          "https://example.com" "#price") targetCtx).etype = "TARGET_ERROR" ∧
    (categorizeError
        (selTimeoutThrownMessage "https://example.com" "#price" 10000)
        targetCtx).category = "Element Extraction" ∧
    (categorizeError
        (selTimeoutThrownMessage "https://example.com" "#price" 10000)
        targetCtx).severity = .MEDIUM ∧
    (categorizeError
        (selTimeoutThrownMessage "https://example.com" "#price" 10000)
        targetCtx).etype = "EXTRACTION_ERROR" := by
  decide

/-- Claim C6 witness: the severity and category routing extracted from the
routing theorem. -/
theorem timeout_kinds_routed_distinctly_witness :
    (categorizeError
        (navTimeoutThrownMessage "Navigation timeout of 30000 ms exceeded"
          "https://example.com" "#price") targetCtx).severity = .HIGH ∧
    (categorizeError
        (selTimeoutThrownMessage "https://example.com" "#price" 10000)
        targetCtx).severity = .MEDIUM := by
  have h := timeout_kinds_routed_distinctly
  exact ⟨h.2.2.1, h.2.2.2.2.2.1⟩

/-- Claim C7: the change comparison treats two nullish values as unchanged,
exactly one nullish value as changed, compares strings by trimmed equality
(whitespace-only differences are no change), and coerces non-string values
to strings before comparing. -/
theorem comparison_semantics :
    (∀ v w : JSVal, v.isNullish = true → w.isNullish = true →
      detectChange v w = false) ∧
    (∀ v w : JSVal, v.isNullish = true → w.isNullish = false →
      detectChange v w = true) ∧
    (∀ v w : JSVal, v.isNullish = false → w.isNullish = true →
      detectChange v w = true) ∧
    (∀ s t : String,
      detectChange (.vstr s) (.vstr t) = false ↔ jsTrim s = jsTrim t) ∧
    detectChange (.vstr "  a  ") (.vstr "a") = false ∧
    detectChange (.vnum 123) (.vstr "123") = false ∧
    (∀ v w : JSVal, v.isNullish = false → w.isNullish = false →
      detectChange v w = (jsTrim v.toStr != jsTrim w.toStr)) := by
  refine ⟨?_, ?_, ?_, ?_, by decide, by decide, ?_⟩
  · intro v w hv hw
    simp [detectChange, hv, hw]
  · intro v w hv hw
    simp [detectChange, hv, hw]
  · intro v w hv hw
    simp [detectChange, hv, hw]
  · intro s t
    simp [detectChange, JSVal.isNullish, JSVal.toStr, bne]
  · intro v w hv hw
    simp [detectChange, hv, hw]

/-- Claim C7 witness: the nullish, trimming and coercion rules at concrete
values. -/
theorem comparison_semantics_witness :
    detectChange .vnull .vundef = false ∧
    detectChange .vundef (.vstr "x") = true ∧
    detectChange (.vstr "x") .vnull = true ∧
    (detectChange (.vstr "  b ") (.vstr "b") = false ↔ jsTrim "  b " = jsTrim "b") ∧
    detectChange (.vbool true) (.vstr "true") =
      (jsTrim (JSVal.vbool true).toStr != jsTrim (JSVal.vstr "true").toStr) := by
  have h := comparison_semantics
  exact ⟨h.1 .vnull .vundef (by decide) (by decide),
    h.2.1 .vundef (.vstr "x") (by decide) (by decide),
    h.2.2.1 (.vstr "x") .vnull (by decide) (by decide),
    h.2.2.2.1 "  b " "b",
    h.2.2.2.2.2.2 (.vbool true) (.vstr "true") (by decide) (by decide)⟩

theorem categorizeError_suggestions_cases (msg : String) (ctx : Ctx) :
    (categorizeError msg ctx).suggestions ≠ [] ∨
    (categorizeError msg ctx).etype = "CHROME_ERROR" ∨
    (categorizeError msg ctx).etype = "EXTRACTION_ERROR" ∨
    (categorizeError msg ctx).etype = "PERSISTENCE_ERROR" := by
  unfold categorizeError
  generalize normMsg msg = message
  unfold categorizeErrorMsg
  split_ifs <;>
    first
    | exact Or.inr (Or.inl rfl)
    | exact Or.inr (Or.inr (Or.inl rfl))
    | exact Or.inr (Or.inr (Or.inr rfl))
    | exact Or.inl (by unfold getConfigErrorSuggestions; simp)
    | exact Or.inl (by unfold getBrowserErrorSuggestions; simp)
    | exact Or.inl (by unfold getPageErrorSuggestions; simp)
    | exact Or.inl (by unfold getNotificationErrorSuggestions; simp)
    | exact Or.inl (by simp)

/-- Claim C8, counterexample: the error message "Chrome debug failed"
classifies as a CRITICAL Chrome error whose remediation suggestion list is
empty — so not every classification carries a non-empty suggestion list,
and this HIGH-or-CRITICAL classification displays nothing. -/
theorem chrome_debug_empty_suggestions :
    (categorizeError "Chrome debug failed" ⟨"workflow", "execute"⟩).suggestions =
      [] ∧
    (categorizeError "Chrome debug failed" ⟨"workflow", "execute"⟩).severity =
      .CRITICAL ∧
    showsSuggestions (categorizeError "Chrome debug failed" ⟨"workflow", "execute"⟩) =
      false := by
  decide

/-- Claim C8 (amended): every classification outside the Chrome, extraction
and persistence kinds carries a non-empty remediation suggestion list (those
three kinds may yield an empty list when the message lacks their trigger
keywords), and suggestions are displayed exactly when the severity is HIGH
or CRITICAL and the list is non-empty. -/
theorem suggestions_nonempty_outside_keyword_gaps :
    (∀ (msg : String) (ctx : Ctx),
      (categorizeError msg ctx).etype ≠ "CHROME_ERROR" →
      (categorizeError msg ctx).etype ≠ "EXTRACTION_ERROR" →
      (categorizeError msg ctx).etype ≠ "PERSISTENCE_ERROR" →
      (categorizeError msg ctx).suggestions ≠ []) ∧
    ∀ c : ClassifiedError,
      showsSuggestions c = true ↔
        (c.severity = Severity.CRITICAL ∨ c.severity = Severity.HIGH) ∧
        c.suggestions ≠ [] := by
  constructor
  · intro msg ctx h1 h2 h3
    rcases categorizeError_suggestions_cases msg ctx with h | h | h | h
    · exact h
    · exact absurd h h1
    · exact absurd h h2
    · exact absurd h h3
  · intro c
    cases hs : c.severity <;>
      simp [showsSuggestions, hs, List.isEmpty_iff]

/-- Claim C8 witness: the amended theorem applied at a concrete unmatched
message — a non-empty suggestion list that an unclassified HIGH error
displays. -/
theorem suggestions_nonempty_outside_keyword_gaps_witness :
    (categorizeError "something odd happened" ⟨"workflow", "execute"⟩).suggestions ≠
      [] ∧
    showsSuggestions
      (categorizeError "something odd happened" ⟨"workflow", "execute"⟩) = true := by
  have h := suggestions_nonempty_outside_keyword_gaps
  refine ⟨h.1 "something odd happened" ⟨"workflow", "execute"⟩ (by decide)
    (by decide) (by decide), ?_⟩
  exact (h.2 (categorizeError "something odd happened" ⟨"workflow", "execute"⟩)).mpr
    (by decide)

end DetectWebChange
